import Mathlib

/-!
Shallow embedding of the core pipeline of `src/app.py` (Botswana Health
Indicators Tracker): data cleaning, filtering/aggregation, trend
classification, KPI change metrics, and narrative generation.

Modelling conventions:
* pandas float values are embedded as `ℚ`;
* a pandas `NaN` cell is `Option.none` (for the dimension columns) or
  `NumField.absent` (for the `Numeric` column);
* a raised Python exception (e.g. `ValueError` from `astype`) is modelled by
  the cleaning function returning `Option.none`;
* `st.stop()` after the empty-data warning is modelled by the
  `SelectionResult.noData` constructor: no further value is computed.
-/

namespace BotswanaApp

/-- Prefix test on the underlying character lists: `subAt pat s` is true when
`pat` is an initial segment of `s`. -/
def subAt : List Char → List Char → Bool
  | [], _ => true
  | _ :: _, [] => false
  | c :: cs, d :: ds => c == d && subAt cs ds

/-- Substring test on character lists: some suffix of `s` starts with `pat`.
Models the Python `in` operator on strings. -/
def hasSub (pat : List Char) : List Char → Bool
  | [] => pat.isEmpty
  | c :: rest => subAt pat (c :: rest) || hasSub pat rest

/-- `strContains s pat` models the Python expression `pat in s`. -/
def strContains (s pat : String) : Bool := hasSub pat.data s.data

/-- Models `str(x).startswith("#")` from the pandas cleaning code. -/
def startswithHash (s : String) : Bool :=
  match s.data with
  | c :: _ => c == '#'
  | [] => false

/-- Models Python `str.lower()` (sufficient for the ASCII keywords the app
matches against). -/
def lowerStr (s : String) : String := String.mk (s.data.map Char.toLower)

/-- Parse a digit string to a natural number; `none` on the empty string or a
non-digit character. Helper for the model of `astype(int)`. -/
def digitsToNat (cs : List Char) : Option Nat :=
  match cs with
  | [] => none
  | _ => cs.foldl
      (fun acc c =>
        match acc with
        | none => none
        | some n => if c.isDigit then some (n * 10 + (c.toNat - 48)) else none)
      (some 0)

/-- Models Python `int(s)` as used by `astype(int)` on the year column:
an optional sign followed by digits; anything else raises (here: `none`). -/
def parseIntStr (s : String) : Option Int :=
  match s.data with
  | '-' :: rest => (digitsToNat rest).map (fun n => -(n : Int))
  | cs => (digitsToNat cs).map (fun n => (n : Int))

/-- The `Numeric` cell of a raw WHO row: `absent` models a pandas `NaN`
(dropped by `dropna`), `num v` a value parseable as float, `junk s` a
non-null string that `astype(float)` cannot parse (a `ValueError`). -/
inductive NumField where
  | absent : NumField
  | num (v : ℚ) : NumField
  | junk (s : String) : NumField
deriving DecidableEq

/-- One raw row of the WHO GHO Botswana CSV, with the columns
`clean_who_botswana` reads. `none` in a dimension column models `NaN`. -/
structure RawRow where
  year_display : String
  gho_code : String
  gho_display : String
  numeric : NumField
  country : String
  dimension_type : Option String
  dimension_name : Option String
deriving DecidableEq

/-- One cleaned data row (the columns kept by `keep_cols` plus the derived
`breakdown` label). -/
structure Observation where
  gho_code : String
  gho_display : String
  year : Int
  value : ℚ
  country : String
  dimension_type : Option String
  dimension_name : Option String
  breakdown : String
deriving DecidableEq

/-- The row-filtering stage of `clean_who_botswana`: drop rows whose
year-display or GHO-code field starts with `#`, and rows whose `Numeric`
cell is NaN (`df.dropna(subset=["Numeric"])`). -/
def keepRow (r : RawRow) : Bool :=
  !startswithHash r.year_display && !startswithHash r.gho_code &&
    decide (r.numeric ≠ NumField.absent)

/-- The column-conversion stage of `clean_who_botswana` applied to one kept
row: `astype(int)` on the year display, `astype(float)` on `Numeric`, and the
derived breakdown `dim_type.fillna("None") + " – " + dim_name.fillna("All")`.
`none` models the `ValueError` that `astype` raises on an unparseable cell. -/
def convertRow (r : RawRow) : Option Observation :=
  match parseIntStr r.year_display, r.numeric with
  | some y, NumField.num v =>
      some { gho_code := r.gho_code, gho_display := r.gho_display,
             year := y, value := v, country := r.country,
             dimension_type := r.dimension_type,
             dimension_name := r.dimension_name,
             breakdown := (r.dimension_type.getD "None") ++ " – " ++
                          (r.dimension_name.getD "All") }
  | _, _ => none

/-- Convert all kept rows; any per-row conversion failure makes the whole
conversion fail, as pandas `astype` raises for the whole column. -/
def convertRows : List RawRow → Option (List Observation)
  | [] => some []
  | r :: rs =>
      match convertRow r, convertRows rs with
      | some o, some os => some (o :: os)
      | _, _ => none

/-- Model of `clean_who_botswana(df_raw)`: filter out metadata/NaN rows, then
convert the year and value columns. `none` models the `ValueError` raised by
`astype` when a kept row has an unparseable year or numeric cell. -/
def clean_who_botswana (rows : List RawRow) : Option (List Observation) :=
  convertRows (rows.filter keepRow)

/-- One aggregated (year, mean value) pair: a row of `df_yearly`. -/
structure YearlyPoint where
  year : Int
  value : ℚ
deriving DecidableEq

/-- The dict returned by `classify_trend`. -/
structure TrendSummary where
  start_year : Int
  end_year : Int
  start_val : ℚ
  end_val : ℚ
  absolute_change : ℚ
  percent_change : Option ℚ
  label : String
deriving DecidableEq

/-- Model of `classify_trend(df_yearly)`: compare the first and last rows,
compute absolute and percent change (`None` when the starting value is zero)
and the threshold label. `df_yearly.iloc[0]` requires a non-empty frame,
hence the hypothesis. -/
def classify_trend (pts : List YearlyPoint) (h : pts ≠ []) : TrendSummary :=
  let first_row := pts.head h
  let last_row := pts.getLast h
  let start_val := first_row.value
  let end_val := last_row.value
  let absolute_change := end_val - start_val
  let percent_change : Option ℚ :=
    if start_val = 0 then none else some (absolute_change / start_val * 100)
  let label :=
    match percent_change with
    | none => "uncertain"
    | some pc =>
        if pc > 10 then "increasing"
        else if pc < -10 then "decreasing"
        else "relatively stable"
  { start_year := first_row.year, end_year := last_row.year,
    start_val := start_val, end_val := end_val,
    absolute_change := absolute_change,
    percent_change := percent_change, label := label }

/-- Static explanatory text for child-mortality indicators. -/
def infantText : String :=
  "This indicator tracks deaths among very young children. Higher values usually mean worse outcomes for child survival; falling trends are a positive sign."

/-- Static explanatory text for adolescent-health indicators. -/
def adolescentText : String :=
  "This indicator focuses on health outcomes among adolescents. Monitoring this helps understand risk, injuries, and access to care for young people."

/-- Static explanatory text for maternal-health indicators. -/
def maternalText : String :=
  "This indicator relates to the health and survival of mothers during pregnancy, childbirth, and the postnatal period. Lower mortality is better."

/-- Static explanatory text for HIV indicators. -/
def hivText : String :=
  "This indicator describes HIV-related burden or services. Declining mortality or incidence is usually good; increasing coverage of treatment is positive."

/-- Static explanatory text for tuberculosis indicators. -/
def tbText : String :=
  "This indicator relates to tuberculosis burden or control. Higher mortality or incidence is concerning; declining trends suggest better TB control."

/-- Static explanatory text for suicide indicators. -/
def suicideText : String :=
  "This indicator tracks deaths due to suicide. Rising values can signal growing mental health and social stress challenges."

/-- The generic fallback explanatory text. -/
def genericText : String :=
  "This indicator reflects a specific health outcome or service coverage in Botswana. Changes over time can signal improvements or emerging challenges in the health system."

/-- Model of `describe_indicator(indicator_name)`: lowercase the name, then a
fixed cascade of substring tests, falling back to a generic sentence. -/
def describe_indicator (indicator_name : String) : String :=
  let name := lowerStr indicator_name
  if strContains name "infant" || strContains name "neonatal" ||
      strContains name "under-five" then infantText
  else if strContains name "adolescent" then adolescentText
  else if strContains name "maternal" then maternalText
  else if strContains name "hiv" then hivText
  else if strContains name "tb" || strContains name "tuberculosis" then tbText
  else if strContains name "suicide" then suicideText
  else genericText

/-- The six keyword groups and their texts, in the priority order the spec
states for `explain`. -/
def keywordGroups : List (List String × String) :=
  [(["infant", "neonatal", "under-five"], infantText),
   (["adolescent"], adolescentText),
   (["maternal"], maternalText),
   (["hiv"], hivText),
   (["tb", "tuberculosis"], tbText),
   (["suicide"], suicideText)]

/-- First group whose keyword list has a member occurring in `name`. -/
def firstMatch (name : String) : List (List String × String) → Option String
  | [] => none
  | g :: gs =>
      if g.1.any (fun k => strContains name k) then some g.2
      else firstMatch name gs

/-- Modelled from the spec (refinement counterpart for the claim about
`describe_indicator`): case-insensitive substring match against the keyword
groups in fixed priority order, first match wins, generic fallback
otherwise. -/
def explain_spec (indicator_name : String) : String :=
  (firstMatch (lowerStr indicator_name) keywordGroups).getD genericText

/-- Python rounding (`round`, and the rounding used by `%.nf` formatting):
round half to even. -/
def pyRound (q : ℚ) : Int :=
  if q - ⌊q⌋ < 1 / 2 then ⌊q⌋
  else if q - ⌊q⌋ > 1 / 2 then ⌊q⌋ + 1
  else if ⌊q⌋ % 2 = 0 then ⌊q⌋ else ⌊q⌋ + 1

/-- Model of Python `round(x, 2)`. -/
def round2 (q : ℚ) : ℚ := (pyRound (q * 100) : ℚ) / 100

/-- Model of the f-string `"{pct:.1f}"`: the value rounded to one decimal,
rendered as text. -/
def fmtPct1 (q : ℚ) : String := toString ((pyRound (q * 10) : ℚ) / 10)

/-- Model of `make_trend_narrative(indicator_name, trend_info)`: four template
sentences keyed by the label. The `indicator_name` parameter is accepted but
never read, exactly as in the source. -/
def make_trend_narrative (indicator_name : String) (t : TrendSummary) : String :=
  let start_val_r := round2 t.start_val
  let end_val_r := round2 t.end_val
  let pct_txt :=
    match t.percent_change with
    | none => "an uncertain percentage change (starting value was zero)"
    | some pct => "about " ++ fmtPct1 pct ++ "%"
  if t.label = "increasing" then
    "Between " ++ toString t.start_year ++ " and " ++ toString t.end_year ++
      ", this indicator increased from " ++ toString start_val_r ++ " to " ++
      toString end_val_r ++ ", a change of " ++ pct_txt ++
      ". This suggests a worsening of the measured burden if higher values are harmful, or improvement if the indicator tracks coverage or access."
  else if t.label = "decreasing" then
    "Between " ++ toString t.start_year ++ " and " ++ toString t.end_year ++
      ", this indicator decreased from " ++ toString start_val_r ++ " to " ++
      toString end_val_r ++ ", a change of " ++ pct_txt ++
      ". For outcomes where high values are harmful (like deaths or mortality), this pattern is generally positive."
  else if t.label = "relatively stable" then
    "From " ++ toString t.start_year ++ " to " ++ toString t.end_year ++
      ", this indicator stayed relatively stable around " ++ toString end_val_r ++
      ", with " ++ pct_txt ++
      " change overall. This may mean that major shifts in this health area have not yet occurred."
  else
    "From " ++ toString t.start_year ++ " to " ++ toString t.end_year ++
      ", this indicator changed from " ++ toString start_val_r ++ " to " ++
      toString end_val_r ++
      ". More detailed context is needed to interpret whether this is good or bad for Botswana."

/-- Insert a year into a strictly ascending list, keeping it strictly
ascending (duplicates collapse). Building block for the model of
`groupby("year")`, whose group keys are the distinct years in ascending
order. -/
def insertYear (y : Int) : List Int → List Int
  | [] => [y]
  | z :: zs =>
      if y < z then y :: z :: zs
      else if y = z then z :: zs
      else z :: insertYear y zs

/-- The distinct members of `l` in ascending order: the group keys of the
pandas `groupby` (which sorts its keys; the later stable
`sort_values("year")` leaves that order unchanged). -/
def sortedYears (l : List Int) : List Int := l.foldr insertYear []

/-- Arithmetic mean, as `Series.mean()` on a non-empty group. -/
def mean (vs : List ℚ) : ℚ := vs.sum / vs.length

/-- The values of the observations for one year group. -/
def valuesForYear (l : List Observation) (y : Int) : List ℚ :=
  (l.filter (fun o => o.year == y)).map (fun o => o.value)

/-- The row filter applied before aggregation (source lines 310-314):
indicator display-name equality, year range, and — unless the sentinel
option is selected — exact breakdown equality. -/
def matchesFilter (ind bd : String) (ymin ymax : Int) (o : Observation) : Bool :=
  o.gho_display == ind && (decide (ymin ≤ o.year) && decide (o.year ≤ ymax)) &&
    (bd == "All breakdowns (average)" || o.breakdown == bd)

/-- Model of the `df_yearly` computation: filter, group by year, mean each
group, sort ascending by year. -/
def df_yearly (obs : List Observation) (ind bd : String) (ymin ymax : Int) :
    List YearlyPoint :=
  let df_ind := obs.filter (matchesFilter ind bd ymin ymax)
  (sortedYears (df_ind.map (fun o => o.year))).map
    (fun y => { year := y, value := mean (valuesForYear df_ind y) })

/-- Outcome of one filter selection (source lines 324-331): either the
empty-data warning followed by `st.stop()` — so no trend summary and no
narrative are ever computed — or the rendered trend summary, narrative and
indicator explainer. -/
inductive SelectionResult where
  | noData (warning : String) : SelectionResult
  | rendered (trend : TrendSummary) (narrative : String) (explainer : String) :
      SelectionResult
deriving DecidableEq

/-- Model of the per-selection pipeline: aggregate, stop with the warning if
empty, otherwise classify and narrate. -/
def run_selection (obs : List Observation) (ind bd : String)
    (ymin ymax : Int) : SelectionResult :=
  let pts := df_yearly obs ind bd ymin ymax
  if h : pts = [] then
    SelectionResult.noData
      "No data available for this combination of indicator, breakdown, and years."
  else
    let trend_info := classify_trend pts h
    SelectionResult.rendered trend_info (make_trend_narrative ind trend_info)
      (describe_indicator ind)

/-- Model of the KPI block (source lines 344-353): change and percent change
of the last `df_yearly` row versus the previous one. With fewer than two rows
the change is the float `0.0` and the percent change `None`; with a zero
previous value only the percent change is `None`. -/
def change_metrics (pts : List YearlyPoint) (h : pts ≠ []) : ℚ × Option ℚ :=
  let latest_value := (pts.getLast h).value
  if h2 : 1 < pts.length then
    let prev_value := (pts.get ⟨pts.length - 2, by omega⟩).value
    let change_abs := latest_value - prev_value
    if prev_value ≠ 0 then (change_abs, some (change_abs / prev_value * 100))
    else (change_abs, none)
  else (0, none)

/-- The trend summary computed over just the last two points of a sequence
with at least two points. -/
def lastTwoSummary (pts : List YearlyPoint) (h : pts ≠ [])
    (h2 : 1 < pts.length) : TrendSummary :=
  classify_trend [pts.get ⟨pts.length - 2, by omega⟩, pts.getLast h] (by simp)

/-- Modelled from the claim about the KPI metrics (refinement counterpart):
both metrics computed as the overall trend summary between the last two
points, and BOTH null when fewer than two points exist or the previous value
is zero. -/
def change_metrics_claim (pts : List YearlyPoint) (h : pts ≠ []) :
    Option ℚ × Option ℚ :=
  if h2 : 1 < pts.length then
    if (pts.get ⟨pts.length - 2, by omega⟩).value = 0 then (none, none)
    else (some (lastTwoSummary pts h h2).absolute_change,
          (lastTwoSummary pts h h2).percent_change)
  else (none, none)

/-! ### Concrete fixtures used by witnesses and counterexamples -/

/-- A well-formed raw data row. -/
def rowKept : RawRow :=
  { year_display := "2015", gho_code := "MDG_0000000001",
    gho_display := "Infant mortality rate", numeric := NumField.num 40,
    country := "Botswana", dimension_type := some "SEX",
    dimension_name := some "Both sexes" }

/-- A metadata/comment raw row (year field starts with `#`). -/
def rowMeta : RawRow :=
  { year_display := "#date downloaded 2024", gho_code := "MDG_0000000001",
    gho_display := "Infant mortality rate", numeric := NumField.absent,
    country := "Botswana", dimension_type := none, dimension_name := none }

/-- A raw row whose numeric cell is present but unparseable. -/
def rowJunk : RawRow :=
  { year_display := "2015", gho_code := "MDG_0000000001",
    gho_display := "Infant mortality rate",
    numeric := NumField.junk "not available", country := "Botswana",
    dimension_type := none, dimension_name := none }

/-- The observation produced by cleaning `rowKept`. -/
def obsKept : Observation :=
  { gho_code := "MDG_0000000001", gho_display := "Infant mortality rate",
    year := 2015, value := 40, country := "Botswana",
    dimension_type := some "SEX", dimension_name := some "Both sexes",
    breakdown := "SEX – Both sexes" }

/-- One of two same-year observations with different breakdowns. -/
def obsW1 : Observation :=
  { gho_code := "C1", gho_display := "Ind", year := 2015, value := 10,
    country := "Botswana", dimension_type := some "SEX",
    dimension_name := some "Male", breakdown := "SEX – Male" }

/-- The other same-year observation, value 20. -/
def obsW2 : Observation :=
  { gho_code := "C1", gho_display := "Ind", year := 2015, value := 20,
    country := "Botswana", dimension_type := some "SEX",
    dimension_name := some "Female", breakdown := "SEX – Female" }

/-! ### Helper lemmas (shared between claim theorems) -/

/-- Projection lemma: the `percent_change` field of `classify_trend`. -/
theorem classify_trend_percent (pts : List YearlyPoint) (h : pts ≠ []) :
    (classify_trend pts h).percent_change =
      if (pts.head h).value = 0 then none
      else some (((pts.getLast h).value - (pts.head h).value) /
                 (pts.head h).value * 100) := rfl

/-- Projection lemma: the `absolute_change` field of `classify_trend`. -/
theorem classify_trend_abs (pts : List YearlyPoint) (h : pts ≠ []) :
    (classify_trend pts h).absolute_change =
      (pts.getLast h).value - (pts.head h).value := rfl

/-- Projection lemma: the `label` field of `classify_trend` as a function of
its `percent_change` field. -/
theorem classify_trend_label (pts : List YearlyPoint) (h : pts ≠ []) :
    (classify_trend pts h).label =
      match (classify_trend pts h).percent_change with
      | none => "uncertain"
      | some pc =>
          if pc > 10 then "increasing"
          else if pc < -10 then "decreasing"
          else "relatively stable" := rfl

/-- `convertRows` succeeds exactly on the row-wise successes. -/
theorem convertRows_eq_some {rs : List RawRow} {obs : List Observation} :
    convertRows rs = some obs ↔
      List.Forall₂ (fun r o => convertRow r = some o) rs obs := by
  induction rs generalizing obs with
  | nil =>
      constructor
      · intro h
        cases h
        exact List.Forall₂.nil
      · intro h
        cases h
        rfl
  | cons r rs ih =>
      constructor
      · intro h
        unfold convertRows at h
        cases hc : convertRow r with
        | none => rw [hc] at h; exact absurd h (by simp)
        | some o =>
            rw [hc] at h
            cases hcs : convertRows rs with
            | none => rw [hcs] at h; exact absurd h (by simp)
            | some os =>
                rw [hcs] at h
                simp only [Option.some_inj] at h
                subst h
                exact List.Forall₂.cons hc (ih.mp hcs)
      · intro h
        cases h with
        | cons hro hrest =>
            unfold convertRows
            rw [hro, ih.mpr hrest]

/-- What a successful per-row conversion says about the produced
observation. -/
theorem convertRow_some {r : RawRow} {o : Observation}
    (h : convertRow r = some o) :
    parseIntStr r.year_display = some o.year ∧
    r.numeric = NumField.num o.value ∧
    o.dimension_type = r.dimension_type ∧
    o.dimension_name = r.dimension_name ∧
    o.breakdown = (r.dimension_type.getD "None") ++ " – " ++
                  (r.dimension_name.getD "All") := by
  unfold convertRow at h
  cases hy : parseIntStr r.year_display with
  | none => rw [hy] at h; exact absurd h (by simp)
  | some y =>
      rw [hy] at h
      cases hn : r.numeric with
      | absent => rw [hn] at h; exact absurd h (by simp)
      | junk s => rw [hn] at h; exact absurd h (by simp)
      | num v =>
          rw [hn] at h
          simp only [Option.some_inj] at h
          subst h
          refine ⟨?_, ?_, rfl, rfl, rfl⟩
          · simpa using hy
          · simpa using hn

/-- Conjoin a pointwise property of the left list onto a `Forall₂`. -/
theorem forall₂_and_left {α β : Type} {P : α → β → Prop} {Q : α → Prop} :
    ∀ {l : List α} {l' : List β}, List.Forall₂ P l l' → (∀ a ∈ l, Q a) →
      List.Forall₂ (fun a b => Q a ∧ P a b) l l' := by
  intro l l' h
  induction h with
  | nil => intro _; exact List.Forall₂.nil
  | cons hab _ ih =>
      intro hq
      exact List.Forall₂.cons ⟨hq _ (List.mem_cons_self _ _), hab⟩
        (ih (fun a ha => hq a (List.mem_cons_of_mem _ ha)))

/-- Each member of the right list of a `Forall₂` is related to some member of
the left list. -/
theorem forall₂_mem_right {α β : Type} {P : α → β → Prop} :
    ∀ {l : List α} {l' : List β}, List.Forall₂ P l l' →
      ∀ b ∈ l', ∃ a ∈ l, P a b := by
  intro l l' h
  induction h with
  | nil => intro b hb; exact absurd hb (by simp)
  | cons hab _ ih =>
      intro b hb
      rcases List.mem_cons.mp hb with rfl | hb
      · exact ⟨_, List.mem_cons_self _ _, hab⟩
      · obtain ⟨a, ha, hPa⟩ := ih b hb
        exact ⟨a, List.mem_cons_of_mem _ ha, hPa⟩

/-- Successful cleaning pairs each surviving raw row with its observation. -/
theorem clean_forall₂ {rows : List RawRow} {obs : List Observation}
    (h : clean_who_botswana rows = some obs) :
    List.Forall₂ (fun r o => keepRow r = true ∧ convertRow r = some o)
      (rows.filter keepRow) obs := by
  have h2 := convertRows_eq_some.mp h
  exact forall₂_and_left h2 (fun a ha => List.of_mem_filter ha)

/-- Membership in `insertYear`. -/
theorem mem_insertYear {a y : Int} {l : List Int} :
    a ∈ insertYear y l ↔ a = y ∨ a ∈ l := by
  induction l with
  | nil => simp [insertYear]
  | cons z zs ih =>
      unfold insertYear
      split
      · simp [List.mem_cons]
      · split
        · rename_i hlt heq
          subst heq
          simp only [List.mem_cons]
          tauto
        · simp only [List.mem_cons, ih]
          tauto

/-- `insertYear` preserves strict ascending order. -/
theorem sorted_insertYear {y : Int} {l : List Int}
    (hl : l.Sorted (· < ·)) : (insertYear y l).Sorted (· < ·) := by
  induction l with
  | nil => simp [insertYear]
  | cons z zs ih =>
      rw [List.sorted_cons] at hl
      obtain ⟨hz, hzs⟩ := hl
      unfold insertYear
      split
      · rename_i hlt
        rw [List.sorted_cons]
        refine ⟨?_, ?_⟩
        · intro b hb
          rcases List.mem_cons.mp hb with rfl | hb
          · exact hlt
          · exact lt_trans hlt (hz b hb)
        · rw [List.sorted_cons]
          exact ⟨hz, hzs⟩
      · split
        · rw [List.sorted_cons]
          exact ⟨hz, hzs⟩
        · rename_i hnlt hne
          rw [List.sorted_cons]
          refine ⟨?_, ih hzs⟩
          intro b hb
          rcases mem_insertYear.mp hb with rfl | hb
          · omega
          · exact hz b hb

/-- The group keys produced by `sortedYears` are strictly ascending. -/
theorem sorted_sortedYears (l : List Int) : (sortedYears l).Sorted (· < ·) := by
  induction l with
  | nil => simp [sortedYears]
  | cons x xs ih =>
      show (insertYear x (sortedYears xs)).Sorted (· < ·)
      exact sorted_insertYear ih

/-- Mapping year-points back to their years recovers the year list. -/
theorem map_year_mk (f : Int → ℚ) (ys : List Int) :
    (ys.map (fun y => ({ year := y, value := f y } : YearlyPoint))).map
      (fun p => p.year) = ys := by
  induction ys with
  | nil => rfl
  | cons x xs ih => simp [ih]

/-- `classify_trend` on an explicit two-element sequence. -/
theorem classify_trend_pair (p q : YearlyPoint) :
    (classify_trend [p, q] (by simp)).absolute_change = q.value - p.value ∧
    (classify_trend [p, q] (by simp)).percent_change =
      (if p.value = 0 then none
       else some ((q.value - p.value) / p.value * 100)) := by
  constructor
  · rw [classify_trend_abs]
    simp [List.getLast]
  · rw [classify_trend_percent]
    simp [List.getLast]

/-- `sortedYears` has the same members as its input. -/
theorem mem_sortedYears {a : Int} {l : List Int} :
    a ∈ sortedYears l ↔ a ∈ l := by
  induction l with
  | nil => simp [sortedYears]
  | cons x xs ih =>
      show a ∈ insertYear x (sortedYears xs) ↔ _
      rw [mem_insertYear, ih]
      simp [List.mem_cons]

/-! ### Claim theorems -/

/-- C1: for every non-empty ordered YearlyPoint sequence, `classify_trend`
returns label "increasing" when the non-null percent change is above 10,
"decreasing" below -10, "relatively stable" otherwise (including exactly +10
and exactly -10), and "uncertain" when the percent change is null. -/
theorem C1_classify_thresholds (pts : List YearlyPoint) (h : pts ≠ []) :
    ((classify_trend pts h).percent_change = none →
      (classify_trend pts h).label = "uncertain") ∧
    (∀ p : ℚ, (classify_trend pts h).percent_change = some p →
      ((p > 10 → (classify_trend pts h).label = "increasing") ∧
       (p < -10 → (classify_trend pts h).label = "decreasing") ∧
       (-10 ≤ p → p ≤ 10 →
         (classify_trend pts h).label = "relatively stable"))) := by
  constructor
  · intro hnone
    rw [classify_trend_label, hnone]
  · intro p hp
    rw [classify_trend_label, hp]
    refine ⟨fun hgt => ?_, fun hlt => ?_, fun hge hle => ?_⟩
    · show (if p > 10 then "increasing" else if p < -10 then "decreasing"
            else "relatively stable") = "increasing"
      rw [if_pos hgt]
    · show (if p > 10 then "increasing" else if p < -10 then "decreasing"
            else "relatively stable") = "decreasing"
      rw [if_neg (by linarith), if_pos hlt]
    · show (if p > 10 then "increasing" else if p < -10 then "decreasing"
            else "relatively stable") = "relatively stable"
      rw [if_neg (by linarith), if_neg (by linarith)]

/-- Witness for C1 at the two-point sequence (2015, 40), (2020, 30), whose
percent change is -25: the label is "decreasing". -/
theorem C1_witness :
    (classify_trend [⟨2015, 40⟩, ⟨2020, 30⟩] (by simp)).label = "decreasing" := by
  have hp : (classify_trend [⟨2015, 40⟩, ⟨2020, 30⟩]
      (by simp)).percent_change = some (-25) := by
    rw [classify_trend_percent]
    norm_num [List.head_cons, List.getLast]
  exact ((C1_classify_thresholds [⟨2015, 40⟩, ⟨2020, 30⟩] (by simp)).2
    (-25) hp).2.1 (by norm_num)

/-- C2: for every non-empty ordered YearlyPoint sequence, `percent_change` is
null exactly when the first value is zero, otherwise it is
`(end - start) / start * 100`, and the label is "uncertain" iff
`percent_change` is null. -/
theorem C2_percent_null_iff (pts : List YearlyPoint) (h : pts ≠ []) :
    ((classify_trend pts h).percent_change = none ↔ (pts.head h).value = 0) ∧
    ((pts.head h).value ≠ 0 →
      (classify_trend pts h).percent_change =
        some (((pts.getLast h).value - (pts.head h).value) /
              (pts.head h).value * 100)) ∧
    ((classify_trend pts h).label = "uncertain" ↔
      (classify_trend pts h).percent_change = none) := by
  refine ⟨?_, ?_, ?_⟩
  · rw [classify_trend_percent]
    by_cases hs : (pts.head h).value = 0 <;> simp [hs]
  · intro hs
    rw [classify_trend_percent, if_neg hs]
  · rw [classify_trend_label]
    cases hpc : (classify_trend pts h).percent_change with
    | none =>
        show "uncertain" = "uncertain" ↔ (none : Option ℚ) = none
        simp
    | some pc =>
        show (if pc > 10 then "increasing" else if pc < -10 then "decreasing"
              else "relatively stable") = "uncertain" ↔ some pc = none
        constructor
        · intro hl
          exfalso
          split_ifs at hl <;> exact absurd hl (by decide)
        · intro hc
          exact absurd hc (by simp)

/-- Witness for C2: a sequence starting at value 0 has a null percent
change. -/
theorem C2_witness :
    (classify_trend [⟨2010, 0⟩, ⟨2012, 5⟩] (by simp)).percent_change = none :=
  (C2_percent_null_iff [⟨2010, 0⟩, ⟨2012, 5⟩] (by simp)).1.mpr rfl

/-- C5: for every single-element YearlyPoint sequence, the absolute change is
0; the percent change is 0 and the label "relatively stable" unless the value
is 0, in which case the percent change is null and the label "uncertain". -/
theorem C5_single_point (p : YearlyPoint) :
    ((classify_trend [p] (by simp)).absolute_change = 0) ∧
    (p.value = 0 →
      (classify_trend [p] (by simp)).percent_change = none ∧
      (classify_trend [p] (by simp)).label = "uncertain") ∧
    (p.value ≠ 0 →
      (classify_trend [p] (by simp)).percent_change = some 0 ∧
      (classify_trend [p] (by simp)).label = "relatively stable") := by
  have hh : ([p] : List YearlyPoint) ≠ [] := by simp
  refine ⟨?_, fun hv => ⟨?_, ?_⟩, fun hv => ?_⟩
  · rw [classify_trend_abs]
    simp
  · rw [classify_trend_percent]
    simp [hv]
  · rw [classify_trend_label, classify_trend_percent]
    simp [hv]
  · have hpc : (classify_trend [p] hh).percent_change = some 0 := by
      rw [classify_trend_percent]
      simp [hv]
    refine ⟨hpc, ?_⟩
    rw [classify_trend_label, hpc]
    norm_num

/-- Witness for C5 at the single point (2020, 5): zero absolute change, zero
percent change, label "relatively stable". -/
theorem C5_witness :
    ((classify_trend [⟨2020, 5⟩] (by simp)).absolute_change = 0) ∧
    ((classify_trend [⟨2020, 5⟩] (by simp)).percent_change = some 0) ∧
    ((classify_trend [⟨2020, 5⟩] (by simp)).label = "relatively stable") := by
  have h := C5_single_point ⟨2020, 5⟩
  have h5 : ((⟨2020, 5⟩ : YearlyPoint)).value ≠ 0 := by norm_num
  exact ⟨h.1, (h.2.2 h5).1, (h.2.2 h5).2⟩

/-- C3 (amended): cleaning drops every row whose year-display or GHO-code
field starts with `#` and every row whose numeric cell is absent (NaN); when
it returns a result, each output observation pairs with a surviving raw row,
carrying that row's parsed integer year and parsed numeric value (so its
value is never null). A present-but-unparseable numeric cell, however, makes
the cleaning raise instead of silently omitting the row (see the
counterexample). -/
theorem C3_clean_excludes (rows : List RawRow) (obs : List Observation)
    (h : clean_who_botswana rows = some obs) :
    List.Forall₂
      (fun r o =>
        startswithHash r.year_display = false ∧
        startswithHash r.gho_code = false ∧
        r.numeric = NumField.num o.value ∧
        parseIntStr r.year_display = some o.year)
      (rows.filter keepRow) obs := by
  refine (clean_forall₂ h).imp ?_
  rintro r o ⟨hk, hc⟩
  obtain ⟨hy, hn, _⟩ := convertRow_some hc
  unfold keepRow at hk
  simp only [Bool.and_eq_true, Bool.not_eq_true', decide_eq_true_eq] at hk
  exact ⟨hk.1.1, hk.1.2, hn, hy⟩

/-- C3 counterexample: on a row whose numeric cell is the unparseable string
"not available", `clean_who_botswana` raises (modelled as `none`) instead of
silently returning the empty cleaned table the claim asks for. -/
theorem C3_counterexample :
    clean_who_botswana [rowJunk] = none ∧
    clean_who_botswana [rowJunk] ≠ some [] := by
  have h : clean_who_botswana [rowJunk] = none := rfl
  refine ⟨h, ?_⟩
  rw [h]
  simp

/-- Witness for C3 on a two-row table: the metadata row is dropped, the good
row survives and converts. -/
theorem C3_witness :
    List.Forall₂
      (fun r o =>
        startswithHash r.year_display = false ∧
        startswithHash r.gho_code = false ∧
        r.numeric = NumField.num o.value ∧
        parseIntStr r.year_display = some o.year)
      ([rowMeta, rowKept].filter keepRow) [obsKept] :=
  C3_clean_excludes [rowMeta, rowKept] [obsKept] rfl

/-- C6: whenever the filtered-and-aggregated sequence is empty, the pipeline
reports the no-data warning and stops: no trend summary and no narrative are
computed for that selection. -/
theorem C6_empty_stops (obs : List Observation) (ind bd : String)
    (ymin ymax : Int) (h : df_yearly obs ind bd ymin ymax = []) :
    run_selection obs ind bd ymin ymax =
      SelectionResult.noData
        "No data available for this combination of indicator, breakdown, and years." := by
  unfold run_selection
  rw [dif_pos h]

/-- Witness for C6: an empty observation table aggregates to the empty
sequence, and the pipeline stops with the warning. -/
theorem C6_witness :
    run_selection [] "Infant mortality rate" "All breakdowns (average)"
        2000 2020 =
      SelectionResult.noData
        "No data available for this combination of indicator, breakdown, and years." :=
  C6_empty_stops [] "Infant mortality rate" "All breakdowns (average)"
    2000 2020 rfl

/-- C7: every observation produced by cleaning carries the breakdown label
built from its own dimension fields: dimension type and dimension name joined
by " – " (en dash surrounded by spaces), with an absent type replaced by the
literal text "None" and an absent name by "All". -/
theorem C7_breakdown (rows : List RawRow) (obs : List Observation)
    (h : clean_who_botswana rows = some obs) :
    ∀ o ∈ obs,
      o.breakdown = (o.dimension_type.getD "None") ++ " – " ++
                    (o.dimension_name.getD "All") := by
  intro o ho
  obtain ⟨r, _, _, hc⟩ := forall₂_mem_right (clean_forall₂ h) o ho
  obtain ⟨_, _, hdt, hdn, hbd⟩ := convertRow_some hc
  rw [hbd, hdt, hdn]

/-- Witness for C7: the cleaned observation of `rowKept` has type "SEX" and
name "Both sexes", and its breakdown label is "SEX – Both sexes". -/
theorem C7_witness :
    obsKept.breakdown = (obsKept.dimension_type.getD "None") ++ " – " ++
      (obsKept.dimension_name.getD "All") ∧
    obsKept.breakdown = "SEX – Both sexes" := by
  have h :=
    C7_breakdown [rowKept] [obsKept] rfl obsKept (List.mem_singleton.mpr rfl)
  exact ⟨h, h.trans (by decide)⟩

/-- C10: `make_trend_narrative` ignores its indicator-name parameter: any two
indicator names yield exactly the same narrative for the same trend
summary. -/
theorem C10_narrative_name_independent (n1 n2 : String) (t : TrendSummary) :
    make_trend_narrative n1 t = make_trend_narrative n2 t := rfl

/-- C4: the aggregation keeps exactly the rows matching the indicator, year
range and (when active) exact breakdown; its output has strictly ascending
years (hence at most one point per year), its years are exactly the distinct
surviving years, and each point carries the arithmetic mean of its year's
surviving values. -/
theorem C4_filter_aggregate (obs : List Observation) (ind bd : String)
    (ymin ymax : Int) :
    (∀ o : Observation, matchesFilter ind bd ymin ymax o = true ↔
      (o.gho_display = ind ∧ ymin ≤ o.year ∧ o.year ≤ ymax ∧
       (bd = "All breakdowns (average)" ∨ o.breakdown = bd))) ∧
    ((df_yearly obs ind bd ymin ymax).map (fun p => p.year)).Sorted (· < ·) ∧
    (∀ y : Int, (∃ p ∈ df_yearly obs ind bd ymin ymax, p.year = y) ↔
      (∃ o ∈ obs.filter (matchesFilter ind bd ymin ymax), o.year = y)) ∧
    (∀ p ∈ df_yearly obs ind bd ymin ymax,
      p.value =
        mean (valuesForYear (obs.filter (matchesFilter ind bd ymin ymax))
          p.year)) := by
  have hmap : (df_yearly obs ind bd ymin ymax).map (fun p => p.year) =
      sortedYears ((obs.filter (matchesFilter ind bd ymin ymax)).map
        (fun o => o.year)) := by
    exact map_year_mk
      (fun y => mean (valuesForYear
        (obs.filter (matchesFilter ind bd ymin ymax)) y))
      (sortedYears ((obs.filter (matchesFilter ind bd ymin ymax)).map
        (fun o => o.year)))
  refine ⟨?_, ?_, ?_, ?_⟩
  · intro o
    unfold matchesFilter
    simp only [Bool.and_eq_true, Bool.or_eq_true, beq_iff_eq,
      decide_eq_true_eq]
    tauto
  · rw [hmap]
    exact sorted_sortedYears _
  · intro y
    calc (∃ p ∈ df_yearly obs ind bd ymin ymax, p.year = y)
        ↔ y ∈ (df_yearly obs ind bd ymin ymax).map (fun p => p.year) := by
          simp [List.mem_map]
      _ ↔ y ∈ sortedYears ((obs.filter (matchesFilter ind bd ymin ymax)).map
            (fun o => o.year)) := by rw [hmap]
      _ ↔ y ∈ (obs.filter (matchesFilter ind bd ymin ymax)).map
            (fun o => o.year) := mem_sortedYears
      _ ↔ (∃ o ∈ obs.filter (matchesFilter ind bd ymin ymax), o.year = y) := by
          simp [List.mem_map]
  · intro p hp
    simp only [df_yearly, List.mem_map] at hp
    obtain ⟨z, _, rfl⟩ := hp
    rfl

/-- Witness for C4 at the spec scenario: two same-year rows with values 10
and 20 and no breakdown filter aggregate to the mean 15. -/
theorem C4_witness :
    ((⟨2015, 15⟩ : YearlyPoint)).value =
      mean (valuesForYear
        ([obsW1, obsW2].filter
          (matchesFilter "Ind" "All breakdowns (average)" 2000 2030))
        ((⟨2015, 15⟩ : YearlyPoint)).year) := by
  have hlist : df_yearly [obsW1, obsW2] "Ind" "All breakdowns (average)"
      2000 2030 = [⟨2015, 15⟩] := by
    simp [df_yearly, matchesFilter, obsW1, obsW2, sortedYears, insertYear,
      valuesForYear, mean]
    norm_num
  have hmem : (⟨2015, 15⟩ : YearlyPoint) ∈
      df_yearly [obsW1, obsW2] "Ind" "All breakdowns (average)" 2000 2030 := by
    rw [hlist]
    exact List.mem_singleton.mpr rfl
  exact (C4_filter_aggregate [obsW1, obsW2] "Ind" "All breakdowns (average)"
    2000 2030).2.2.2 ⟨2015, 15⟩ hmem

/-- C8: `describe_indicator` behaves as a case-insensitive substring match in
the fixed priority order infant/neonatal/under-five, adolescent, maternal,
HIV, TB/tuberculosis, suicide, first match winning, with the generic fallback
exactly when no group matches; in particular "HIV mortality rate" yields the
HIV-specific text, which differs from the fallback. -/
theorem C8_explain_priority :
    (∀ name : String, describe_indicator name = explain_spec name) ∧
    describe_indicator "HIV mortality rate" = hivText ∧
    keywordGroups.all (fun g => decide (g.2 ≠ genericText)) = true := by
  refine ⟨?_, by decide, by decide⟩
  intro n
  unfold describe_indicator explain_spec
  simp only [keywordGroups, firstMatch, List.any_cons, List.any_nil,
    Bool.or_false, Bool.or_assoc,
    apply_ite (fun o : Option String => o.getD genericText),
    Option.getD_some, Option.getD_none]

/-- C9 counterexample: on the single-point sequence [(2020, 5)] the code
reports a change-versus-previous of the float 0.0, while the claim requires
both metrics to be null when fewer than two points exist. -/
theorem C9_counterexample :
    (change_metrics [⟨2020, 5⟩] (by simp)).1 = 0 ∧
    (change_metrics_claim [⟨2020, 5⟩] (by simp)).1 = none := by
  constructor
  · unfold change_metrics
    rw [dif_neg (by simp)]
  · unfold change_metrics_claim
    rw [dif_neg (by simp)]

/-- C9 (amended): the percent-change KPI is null exactly when fewer than two
points exist or the previous value is zero; with at least two points both
KPIs are computed exactly as the overall trend summary between the last two
points; with fewer than two points the absolute-change KPI is the float 0.0
(not null) and the percent-change KPI is null. -/
theorem C9_kpi_change (pts : List YearlyPoint) (h : pts ≠ []) :
    (pts.length ≤ 1 → change_metrics pts h = (0, none)) ∧
    (∀ h2 : 1 < pts.length,
      change_metrics pts h =
        ((lastTwoSummary pts h h2).absolute_change,
         (lastTwoSummary pts h h2).percent_change) ∧
      ((change_metrics pts h).2 = none ↔
        (pts.get ⟨pts.length - 2, by omega⟩).value = 0)) := by
  constructor
  · intro hle
    unfold change_metrics
    rw [dif_neg (by omega)]
  · intro h2
    have hcm : change_metrics pts h =
        (if (pts.get ⟨pts.length - 2, by omega⟩).value ≠ 0 then
          ((pts.getLast h).value - (pts.get ⟨pts.length - 2, by omega⟩).value,
           some (((pts.getLast h).value -
              (pts.get ⟨pts.length - 2, by omega⟩).value) /
             (pts.get ⟨pts.length - 2, by omega⟩).value * 100))
        else
          ((pts.getLast h).value - (pts.get ⟨pts.length - 2, by omega⟩).value,
           none)) := by
      unfold change_metrics
      rw [dif_pos h2]
    have hlts_abs : (lastTwoSummary pts h h2).absolute_change =
        (pts.getLast h).value -
          (pts.get ⟨pts.length - 2, by omega⟩).value :=
      (classify_trend_pair (pts.get ⟨pts.length - 2, by omega⟩)
        (pts.getLast h)).1
    have hlts_pct : (lastTwoSummary pts h h2).percent_change =
        (if (pts.get ⟨pts.length - 2, by omega⟩).value = 0 then none
         else some (((pts.getLast h).value -
            (pts.get ⟨pts.length - 2, by omega⟩).value) /
           (pts.get ⟨pts.length - 2, by omega⟩).value * 100)) :=
      (classify_trend_pair (pts.get ⟨pts.length - 2, by omega⟩)
        (pts.getLast h)).2
    rw [hcm, hlts_abs, hlts_pct]
    by_cases hz : (pts.get ⟨pts.length - 2, by omega⟩).value = 0
    · rw [if_neg (not_not_intro hz), if_pos hz]
      exact ⟨rfl, iff_of_true rfl hz⟩
    · rw [if_pos hz, if_neg hz]
      exact ⟨rfl, iff_of_false (by simp) hz⟩

/-- Witness for C9 at the two-point sequence (2019, 2), (2020, 3): the KPIs
are 1 and +50 percent, matching the last-two-points trend summary. -/
theorem C9_witness :
    change_metrics [⟨2019, 2⟩, ⟨2020, 3⟩] (by simp) =
      ((lastTwoSummary [⟨2019, 2⟩, ⟨2020, 3⟩] (by simp) (by simp)).absolute_change,
       (lastTwoSummary [⟨2019, 2⟩, ⟨2020, 3⟩] (by simp) (by simp)).percent_change) :=
  ((C9_kpi_change [⟨2019, 2⟩, ⟨2020, 3⟩] (by simp)).2 (by simp)).1

end BotswanaApp
